import Mathlib

/-!
Shallow embedding of the Room EQ visual pipeline editor
(src/public/src/room.js) together with theorems settling the
frozen claims about its layout and rendering behaviour.

The source is a single browser module that turns a linearized DSP
configuration (a list of channels, each an ordered list of stage
components) into one lane per channel, one node per stage, and one
wire per consecutive node pair.  DOM elements are modelled as plain
Lean structures, DOM child lists as Lean lists, and the two
asynchronous fetches (downloadConfig, linearizeConfig) as explicit
Except-valued inputs.
-/

/-- Layout constants, from the top of room.js. -/
def nodeWidth : Nat := 120

/-- Node height constant from room.js. -/
def nodeHeight : Nat := 80

/-- Horizontal spacing between nodes, from room.js. -/
def nodeSpacing : Nat := 20

/-- Lane height constant from room.js. -/
def laneHeight : Nat := 120

/-- Device descriptor carried by input and output stages. -/
structure Device where
  device : String
  format : String
  deriving Repr, DecidableEq

/-- Parameters mapping of a filter, as inspected by formatNodeContent:
only the keys type, freq and gain are read.  freq and gain are
optional because the JS object may omit them (undefined). -/
structure FilterParams where
  type : String
  freq : Option Int
  gain : Option Int
  deriving Repr, DecidableEq

/-- The value stored under the single user-named key of a filter
component: a type tag and a parameters mapping. -/
structure FilterSpec where
  type : String
  parameters : FilterParams
  deriving Repr, DecidableEq

/-- A stage component of the linearized configuration.  The filter
variant keeps the ordered list of its non-type keys together with
their FilterSpec values, mirroring Object.keys enumeration order;
the other variant stands for any unrecognized type string. -/
inductive Component where
  | input (device : Device)
  | output (device : Device)
  | mixer (sources : List String)
  | filter (entries : List (String × FilterSpec))
  | other (typeName : String)
  deriving Repr, DecidableEq

/-- The value of component.type as the JS code reads it. -/
def Component.ctype : Component → String
  | .input _ => "input"
  | .output _ => "output"
  | .mixer _ => "mixer"
  | .filter _ => "filter"
  | .other t => t

/-- JS truthiness of an optional numeric value, as used by the guard
if (params.freq): undefined and 0 are falsy, every other integer is
truthy. -/
def jsTruthy : Option Int → Bool
  | none => false
  | some v => v ≠ 0

/-- String interpolation of an optional numeric value: an undefined
JS value prints as the string undefined. -/
def optNumToString : Option Int → String
  | none => "undefined"
  | some v => toString v

/-- formatNodeContent from room.js, returning the ordered list of
nodeDetail lines produced by the switch on component.type.  The
filter branch takes the first non-type key (Object.keys(...).find)
and guards it with if (!filterName), a JS truthiness test that is
true both when no non-type key exists (find returns undefined) and
when the first non-type key is the empty string; in either case the
single line Unknown is returned. -/
def formatNodeContent : Component → List String
  | .input d => [d.device, d.format]
  | .output d => [d.device, d.format]
  | .mixer sources =>
      let sourceCount := sources.length
      [toString sourceCount ++ " source" ++ (if sourceCount ≠ 1 then "s" else "")]
  | .filter entries =>
      match entries with
      | [] => ["Unknown"]
      | (filterName, filter) :: _ =>
          if filterName = "" then ["Unknown"] else
          let params := filter.parameters
          if filter.type = "Biquad" then
            [filterName, params.type]
              ++ (if jsTruthy params.freq then [optNumToString params.freq ++ " Hz"] else [])
              ++ (if params.gain.isSome then [optNumToString params.gain ++ " dB"] else [])
          else if filter.type = "Gain" then
            [filterName, "Gain: " ++ optNumToString params.gain ++ " dB"]
          else if filter.type = "Conv" then
            [filterName, "Convolution"]
          else
            [filterName, filter.type]
  | .other _ => ["Unknown"]

/-- String.prototype.toUpperCase as applied by createNode to the
ASCII type tags: upper-case every character. -/
def jsToUpper (s : String) : String :=
  ⟨s.data.map Char.toUpper⟩

/-- A node element as built by createNode: position, size, header
text, detail lines and the presence of the two connectors. -/
structure NodeSpec where
  dataType : String
  channel : Nat
  left : Nat
  width : Nat
  height : Nat
  header : String
  details : List String
  hasLeftConnector : Bool
  hasRightConnector : Bool
  deriving Repr, DecidableEq

/-- createNode from room.js: builds the node element for a component
at a given x position.  The left connector is added unless the type
is input, the right connector unless the type is output. -/
def createNode (component : Component) (channelNo : Nat) (xPos : Nat) : NodeSpec :=
  { dataType := component.ctype
    channel := channelNo
    left := xPos
    width := nodeWidth
    height := nodeHeight
    header := jsToUpper component.ctype
    details := formatNodeContent component
    hasLeftConnector := component.ctype ≠ "input"
    hasRightConnector := component.ctype ≠ "output" }

/-- The node-building loop of createLane: starting from the running
x position, build one node per component and advance x by
nodeWidth + nodeSpacing after each. -/
def buildNodes (components : List Component) (channelNo : Nat) (xPos : Nat) :
    List NodeSpec :=
  match components with
  | [] => []
  | c :: rest =>
      createNode c channelNo xPos :: buildNodes rest channelNo (xPos + nodeWidth + nodeSpacing)

/-- A lane element as built by createLane: channel attribute, label
text, fixed height and the ordered nodes of its node container. -/
structure LaneSpec where
  channel : Nat
  label : String
  height : Nat
  nodes : List NodeSpec
  deriving Repr, DecidableEq

/-- createLane from room.js: label Channel followed by the channel
number, fixed lane height, and nodes laid out from x = 10. -/
def createLane (channelNo : Nat) (components : List Component) : LaneSpec :=
  { channel := channelNo
    label := "Channel " ++ toString channelNo
    height := laneHeight
    nodes := buildNodes components channelNo 10 }

/-- The lane-building loop of renderPipeline: one lane per channel,
indexed 0 .. channelCount - 1 in order. -/
def renderLanes (channels : List (List Component)) : List LaneSpec :=
  channels.enum.map (fun p => createLane p.1 p.2)

/-- A wire element as appended to a node container by drawWires: it
records the pair of node elements it was created between. -/
structure WireRef where
  fromNode : NodeSpec
  toNode : NodeSpec
  deriving Repr, DecidableEq

/-- A child of a node container: either a node element or a wire
element (distinguished in the DOM by the class wire). -/
inductive LaneElem where
  | nodeElem (n : NodeSpec)
  | wireElem (w : WireRef)
  deriving Repr, DecidableEq

/-- Whether a container child matches the selector .wire. -/
def isWireElem : LaneElem → Bool
  | .wireElem _ => true
  | .nodeElem _ => false

/-- The wires created by the loop of drawWires: one per consecutive
node pair, wire i connecting nodes i and i + 1. -/
def wiresFor (nodes : List NodeSpec) : List WireRef :=
  (nodes.zip nodes.tail).map (fun p => ⟨p.1, p.2⟩)

/-- drawWires from room.js: first remove every existing child with
class wire from the container, then append one wire per consecutive
node pair of the given node list. -/
def drawWires (container : List LaneElem) (nodes : List NodeSpec) : List LaneElem :=
  container.filter (fun e => ¬ isWireElem e) ++ (wiresFor nodes).map LaneElem.wireElem

/-- Number of children of a container that match the selector .wire. -/
def wireCount (container : List LaneElem) : Nat :=
  (container.filter (fun e => isWireElem e)).length

/-- The node container of a lane as createLane leaves it before the
requestAnimationFrame callback runs: the nodes, in order, no wires. -/
def laneContainer (lane : LaneSpec) : List LaneElem :=
  lane.nodes.map LaneElem.nodeElem

/-- A measured bounding box as returned by getBoundingClientRect,
with real coordinates: left and right edges, top edge, and height. -/
structure BoundingRect where
  left : ℝ
  right : ℝ
  top : ℝ
  height : ℝ

/-- Vertical center of a bounding box, top + height / 2. -/
noncomputable def BoundingRect.verticalCenter (r : BoundingRect) : ℝ :=
  r.top + r.height / 2

/-- The geometric output of createWire: the anchor point (style left
and top), the segment length (style width) and the rotation angle in
degrees applied about the anchor. -/
structure WireGeom where
  left : ℝ
  top : ℝ
  width : ℝ
  angleDeg : ℝ

/-- Two-argument arctangent as computed by Math.atan2(y, x),
modelled over the reals by its standard piecewise definition. -/
noncomputable def atan2 (y x : ℝ) : ℝ :=
  if 0 < x then Real.arctan (y / x)
  else if x < 0 ∧ 0 ≤ y then Real.arctan (y / x) + Real.pi
  else if x < 0 ∧ y < 0 then Real.arctan (y / x) - Real.pi
  else if x = 0 ∧ 0 < y then Real.pi / 2
  else if x = 0 ∧ y < 0 then -(Real.pi / 2)
  else 0

/-- createWire from room.js: from the measured rectangles of the two
nodes and of their container, compute the anchor at the right edge
and vertical center of the first node (relative to the container),
the target at the left edge and vertical center of the second node,
and from their differences the segment length and rotation angle. -/
noncomputable def createWire (fromRect toRect containerRect : BoundingRect) : WireGeom :=
  let fromX := fromRect.right - containerRect.left
  let fromY := fromRect.top + fromRect.height / 2 - containerRect.top
  let toX := toRect.left - containerRect.left
  let toY := toRect.top + toRect.height / 2 - containerRect.top
  let deltaX := toX - fromX
  let deltaY := toY - fromY
  { left := fromX
    top := fromY
    width := Real.sqrt (deltaX * deltaX + deltaY * deltaY)
    angleDeg := atan2 deltaY deltaX * 180 / Real.pi }

/-- Content of the editor element: either the rendered lanes or the
error panel written by showError. -/
inductive EditorView where
  | laneView (lanes : List LaneSpec)
  | errorView (message : String)
  deriving Repr, DecidableEq

/-- The mutable module state of room.js that rendering touches: the
editor element content and the module-level lanes array. -/
structure RoomState where
  editor : EditorView
  lanes : List LaneSpec
  deriving Repr, DecidableEq

/-- showError from room.js: replaces the editor content with an
error panel holding the message; the lanes array is not touched. -/
def showError (message : String) (s : RoomState) : RoomState :=
  { s with editor := .errorView message }

/-- renderPipeline from room.js, with the result of the
linearizeConfig fetch passed explicitly.  The editor and the lanes
array are cleared first; then, if linearization succeeds, one lane
per channel is appended to both.  A linearization failure leaves the
cleared state behind and propagates the error (second component). -/
def renderPipelineRun (lin : Except String (List (List Component))) (_s : RoomState) :
    RoomState × Option String :=
  let cleared : RoomState := { editor := .laneView [], lanes := [] }
  match lin with
  | .error e => (cleared, some e)
  | .ok channels =>
      let ls := renderLanes channels
      ({ editor := .laneView ls, lanes := ls }, none)

/-- refreshPipeline from room.js, with the outcomes of the two
awaited calls passed explicitly.  There is no try block: a failing
downloadConfig propagates before renderPipeline runs, leaving the
state untouched; otherwise renderPipeline runs. -/
def refreshPipelineRun (dl : Except String Unit)
    (lin : Except String (List (List Component))) (s : RoomState) :
    RoomState × Option String :=
  match dl with
  | .error e => (s, some e)
  | .ok _ => renderPipelineRun lin s

/-- roomOnLoad from room.js: if not connected, show the connectivity
message; otherwise run downloadConfig and renderPipeline inside a
try block whose catch shows the error message prefixed with
Error loading DSP configuration. -/
def roomOnLoad (connected : Bool) (dl : Except String Unit)
    (lin : Except String (List (List Component))) (s : RoomState) : RoomState :=
  if ¬ connected then
    showError "Not connected to DSP. Please connect from the Connections page." s
  else
    match dl with
    | .error e => showError ("Error loading DSP configuration: " ++ e) s
    | .ok _ =>
        match renderPipelineRun lin s with
        | (s1, none) => s1
        | (s1, some e) => showError ("Error loading DSP configuration: " ++ e) s1

/-- The atomic steps of one refreshPipeline call, as seen by the
shared editor element.  JavaScript runs each synchronous block
atomically, so a refresh contributes exactly two steps: clearPass
(the synchronous prefix of renderPipeline after downloadConfig
resolves: editor.innerHTML cleared and lanes reset, then
linearizeConfig started) and appendPass (the synchronous suffix
after linearizeConfig resolves: every lane of that pass appended).
pass identifies which of the two overlapping refreshes the step
belongs to. -/
inductive RefreshEvent where
  | clearPass (pass : Bool)
  | appendPass (pass : Bool)
  deriving Repr, DecidableEq

/-- Effect of one atomic refresh step on the list of lanes visible
in the editor, where lanesOf selects the lanes rendered by the given
pass. -/
def refreshStep (lanesOf : Bool → List LaneSpec) (editor : List LaneSpec)
    (e : RefreshEvent) : List LaneSpec :=
  match e with
  | .clearPass _ => []
  | .appendPass p => editor ++ lanesOf p

/-- Visible editor content after running an interleaving of atomic
refresh steps from a starting editor content. -/
def runSchedule (lanesOf : Bool → List LaneSpec) (editor : List LaneSpec)
    (sched : List RefreshEvent) : List LaneSpec :=
  sched.foldl (refreshStep lanesOf) editor

/-- A schedule is a valid interleaving of two refresh calls when
each of the four steps occurs exactly once and each pass clears
before it appends (program order within one call). -/
def validInterleaving (sched : List RefreshEvent) : Prop :=
  sched.Perm [RefreshEvent.clearPass false, RefreshEvent.appendPass false,
    RefreshEvent.clearPass true, RefreshEvent.appendPass true] ∧
  ∀ p : Bool,
    sched.indexOf (RefreshEvent.clearPass p) < sched.indexOf (RefreshEvent.appendPass p)

/-!
Helper lemmas about the builders.
-/

theorem buildNodes_length (components : List Component) (channelNo xPos : Nat) :
    (buildNodes components channelNo xPos).length = components.length := by
  induction components generalizing xPos with
  | nil => rfl
  | cons c rest ih => simp [buildNodes, ih]

theorem buildNodes_getElem (components : List Component) (channelNo xPos i : Nat)
    (h : i < components.length)
    (hb : i < (buildNodes components channelNo xPos).length) :
    (buildNodes components channelNo xPos)[i] =
      createNode components[i] channelNo (xPos + (nodeWidth + nodeSpacing) * i) := by
  induction components generalizing xPos i with
  | nil => simp at h
  | cons c rest ih =>
      cases i with
      | zero => simp [buildNodes]
      | succ j =>
          have hj : j < rest.length := by simpa using h
          have hbj : j < (buildNodes rest channelNo (xPos + nodeWidth + nodeSpacing)).length := by
            rw [buildNodes_length]; exact hj
          simp only [buildNodes, List.getElem_cons_succ]
          rw [ih _ _ hj hbj]
          congr 1
          ring

theorem buildNodes_channel (components : List Component) (channelNo xPos : Nat) :
    ∀ n ∈ buildNodes components channelNo xPos, n.channel = channelNo := by
  induction components generalizing xPos with
  | nil => simp [buildNodes]
  | cons c rest ih =>
      intro n hn
      rcases (by simpa [buildNodes] using hn :
          n = createNode c channelNo xPos ∨
            n ∈ buildNodes rest channelNo (xPos + nodeWidth + nodeSpacing)) with h | h
      · subst h; rfl
      · exact ih _ _ h

theorem wiresFor_length (nodes : List NodeSpec) :
    (wiresFor nodes).length = nodes.length - 1 := by
  simp only [wiresFor, List.length_map, List.length_zip, List.length_tail]
  omega

theorem wiresFor_getElem (nodes : List NodeSpec) (i : Nat)
    (h : i < (wiresFor nodes).length)
    (hi : i < nodes.length) (hi1 : i + 1 < nodes.length) :
    (wiresFor nodes)[i] = ⟨nodes[i], nodes[i + 1]⟩ := by
  have hz : i < (nodes.zip nodes.tail).length := by
    simpa [wiresFor] using h
  have ht : i < nodes.tail.length := by
    rw [List.length_tail]; omega
  simp [wiresFor, List.getElem_zip, List.getElem_tail]

theorem filter_wire_of_cleared (container : List LaneElem) :
    (container.filter (fun e => ¬ isWireElem e)).filter (fun e => isWireElem e) = [] := by
  induction container with
  | nil => rfl
  | cons e rest ih => cases e <;> simp [isWireElem, ih]

theorem filter_wire_of_wires (ws : List WireRef) :
    (ws.map LaneElem.wireElem).filter (fun e => isWireElem e) = ws.map LaneElem.wireElem := by
  induction ws with
  | nil => rfl
  | cons w rest ih => simp [isWireElem, ih]

theorem wireCount_drawWires (container : List LaneElem) (nodes : List NodeSpec) :
    wireCount (drawWires container nodes) = nodes.length - 1 := by
  simp [wireCount, drawWires, List.filter_append, filter_wire_of_cleared,
    filter_wire_of_wires, wiresFor_length]

theorem renderLanes_length (channels : List (List Component)) :
    (renderLanes channels).length = channels.length := by
  simp [renderLanes]

theorem renderLanes_getElem (channels : List (List Component)) (i : Nat)
    (h : i < (renderLanes channels).length) (hc : i < channels.length) :
    (renderLanes channels)[i] = createLane i channels[i] := by
  simp [renderLanes]

theorem createLane_node_left (components : List Component) (channelNo i : Nat)
    (h : i < ((createLane channelNo components).nodes).length) :
    (((createLane channelNo components).nodes).get ⟨i, h⟩).left = 10 + 140 * i := by
  have hc : i < components.length := by
    simpa [createLane, buildNodes_length] using h
  have hb : i < (buildNodes components channelNo 10).length := by
    simpa [createLane] using h
  have hg := buildNodes_getElem components channelNo 10 i hc hb
  simp only [createLane, List.get_eq_getElem] at hg ⊢
  rw [hg]
  simp [createNode, nodeWidth, nodeSpacing]

/-- C1: for every lane built from a channel stage list of length K,
the lane contains exactly K nodes; after drawWires runs on the lane
container the container holds exactly max(K - 1, 0) wire elements;
the wire list has max(K - 1, 0) entries and wire i connects node i
to node i + 1 of that same lane; and every wire of the lane joins
two nodes carrying this lane channel number, so no wire crosses
lanes. -/
theorem c1_lane_node_and_wire_counts (components : List Component) (channelNo : Nat) :
    ((createLane channelNo components).nodes).length = components.length ∧
    wireCount (drawWires (laneContainer (createLane channelNo components))
        ((createLane channelNo components).nodes)) = max (components.length - 1) 0 ∧
    (wiresFor ((createLane channelNo components).nodes)).length =
      max (components.length - 1) 0 ∧
    (∀ i, ∀ h : i < (wiresFor ((createLane channelNo components).nodes)).length,
      ∀ hi : i < ((createLane channelNo components).nodes).length,
      ∀ hi1 : i + 1 < ((createLane channelNo components).nodes).length,
      (wiresFor ((createLane channelNo components).nodes)).get ⟨i, h⟩ =
        ⟨((createLane channelNo components).nodes).get ⟨i, hi⟩,
          ((createLane channelNo components).nodes).get ⟨i + 1, hi1⟩⟩) ∧
    (∀ w ∈ wiresFor ((createLane channelNo components).nodes),
      w.fromNode.channel = channelNo ∧ w.toNode.channel = channelNo) := by
  have hlen : ((createLane channelNo components).nodes).length = components.length := by
    simp [createLane, buildNodes_length]
  refine ⟨hlen, ?_, ?_, ?_, ?_⟩
  · rw [wireCount_drawWires, hlen, Nat.max_zero]
  · rw [wiresFor_length, hlen, Nat.max_zero]
  · intro i h hi hi1
    simpa [List.get_eq_getElem] using
      wiresFor_getElem ((createLane channelNo components).nodes) i h hi hi1
  · intro w hw
    simp only [wiresFor, List.mem_map] at hw
    obtain ⟨⟨a, b⟩, hab, rfl⟩ := hw
    obtain ⟨ha, hb⟩ := List.of_mem_zip hab
    have hb2 : b ∈ (createLane channelNo components).nodes := List.mem_of_mem_tail hb
    exact ⟨buildNodes_channel components channelNo 10 a ha,
      buildNodes_channel components channelNo 10 b hb2⟩

/-- Witness for C1 at a concrete three-stage channel: the first wire
of the lane connects the first two nodes. -/
theorem c1_lane_node_and_wire_counts_witness :
    (wiresFor ((createLane 5 [Component.other "a", Component.other "b",
        Component.other "c"]).nodes)).get ⟨0, by decide⟩ =
      ⟨((createLane 5 [Component.other "a", Component.other "b",
          Component.other "c"]).nodes).get ⟨0, by decide⟩,
        ((createLane 5 [Component.other "a", Component.other "b",
          Component.other "c"]).nodes).get ⟨1, by decide⟩⟩ :=
  (c1_lane_node_and_wire_counts [Component.other "a", Component.other "b",
    Component.other "c"] 5).2.2.2.1 0 (by decide) (by decide) (by decide)

/-- C2: in every lane the node at stage index i sits at x-offset
10 + 140 i, so the first node sits at 10, each subsequent node
exceeds its predecessor by exactly 140 (node width 120 plus 20 gap),
and x-offsets are strictly increasing in stage order. -/
theorem c2_node_x_offsets (components : List Component) (channelNo i : Nat)
    (h : i < ((createLane channelNo components).nodes).length) :
    (((createLane channelNo components).nodes).get ⟨i, h⟩).left = 10 + 140 * i ∧
    (∀ h1 : i + 1 < ((createLane channelNo components).nodes).length,
      (((createLane channelNo components).nodes).get ⟨i + 1, h1⟩).left =
        (((createLane channelNo components).nodes).get ⟨i, h⟩).left + 140) ∧
    (∀ j, ∀ hj : j < ((createLane channelNo components).nodes).length, i < j →
      (((createLane channelNo components).nodes).get ⟨i, h⟩).left <
        (((createLane channelNo components).nodes).get ⟨j, hj⟩).left) := by
  refine ⟨createLane_node_left components channelNo i h, ?_, ?_⟩
  · intro h1
    rw [createLane_node_left components channelNo i h,
      createLane_node_left components channelNo (i + 1) h1]
    ring
  · intro j hj hij
    rw [createLane_node_left components channelNo i h,
      createLane_node_left components channelNo j hj]
    omega

/-- Witness for C2 at a concrete two-stage channel: the second node
sits at x-offset 150 = 10 + 140. -/
theorem c2_node_x_offsets_witness :
    (((createLane 0 [Component.other "a", Component.other "b"]).nodes).get
      ⟨1, by decide⟩).left = 150 := by
  have h := (c2_node_x_offsets [Component.other "a", Component.other "b"] 0 1 (by decide)).1
  simpa using h

/-- C3: rendering a linearized configuration with N channels
produces exactly N lanes, and the lane at index i carries the label
Channel i. -/
theorem c3_lane_count_and_labels (channels : List (List Component)) :
    (renderLanes channels).length = channels.length ∧
    ∀ i, ∀ h : i < (renderLanes channels).length,
      ((renderLanes channels).get ⟨i, h⟩).label = "Channel " ++ toString i := by
  refine ⟨renderLanes_length channels, ?_⟩
  intro i h
  have hc : i < channels.length := by
    simpa [renderLanes_length] using h
  simp [List.get_eq_getElem, renderLanes_getElem channels i h hc, createLane]

/-- Witness for C3 at a concrete two-channel configuration: the
second lane is labeled Channel 1. -/
theorem c3_lane_count_and_labels_witness :
    ((renderLanes [[], []]).get ⟨1, by decide⟩).label = "Channel 1" :=
  ((c3_lane_count_and_labels [[], []]).2 1 (by decide)).trans (by decide)

/-- Concrete prior render state used against C4: one lane is present
in the editor and in the lanes array. -/
def staleState : RoomState :=
  { editor := .laneView [createLane 0 [Component.other "gain"]]
    lanes := [createLane 0 [Component.other "gain"]] }

/-- Counterexample to C4 as stated: a refresh whose downloadConfig
fails leaves the state entirely unchanged, so the prior lane list is
not cleared and the editor still shows the lane view rather than an
error panel; the error merely propagates to the caller. -/
theorem c4_counterexample :
    refreshPipelineRun (Except.error "network down") (Except.ok []) staleState =
      (staleState, some "network down") ∧
    staleState.lanes ≠ [] ∧
    ¬ (∃ m, staleState.editor = EditorView.errorView m) := by
  refine ⟨rfl, by decide, ?_⟩
  rintro ⟨m, hm⟩
  simp [staleState] at hm

/-- C4 amended: refreshPipeline has no error handler, so on failure
it does not reach an error view.  When downloadConfig fails the
error propagates with the state untouched: the prior lanes remain
and no error panel is shown.  When downloadConfig succeeds and
linearizeConfig fails, renderPipeline has already cleared the editor
and the lane list, and the error then propagates, again with no
error panel shown.  Only initialization (roomOnLoad) surfaces the
failure message, through showError inside its try handler. -/
theorem c4_refresh_failure_behaviour (s : RoomState) (e : String)
    (lin : Except String (List (List Component))) :
    refreshPipelineRun (Except.error e) lin s = (s, some e) ∧
    refreshPipelineRun (Except.ok ()) (Except.error e) s =
      ({ editor := EditorView.laneView [], lanes := [] }, some e) ∧
    roomOnLoad true (Except.error e) lin s =
      showError ("Error loading DSP configuration: " ++ e) s ∧
    roomOnLoad true (Except.ok ()) (Except.error e) s =
      showError ("Error loading DSP configuration: " ++ e)
        { editor := EditorView.laneView [], lanes := [] } :=
  ⟨rfl, rfl, rfl, rfl⟩

/-- The Biquad detail lines exactly as claim C5 words them: the
frequency line appears whenever the freq parameter is present, the
gain line whenever the gain parameter is not absent. -/
def biquadDetailsClaimed (filterName : String) (params : FilterParams) : List String :=
  [filterName, params.type]
    ++ (if params.freq.isSome then [optNumToString params.freq ++ " Hz"] else [])
    ++ (if params.gain.isSome then [optNumToString params.gain ++ " dB"] else [])

/-- Counterexample to C5 as stated: for a Biquad with parameters
type Peaking, freq 0, gain 0 the freq parameter is present, yet the
code guard if (params.freq) is a truthiness test, so the 0 Hz line
is dropped and the formatted details differ from the claimed
lines. -/
theorem c5_counterexample :
    formatNodeContent (Component.filter
        [("F", ⟨"Biquad", ⟨"Peaking", some 0, some 0⟩⟩)]) =
      ["F", "Peaking", "0 dB"] ∧
    biquadDetailsClaimed "F" ⟨"Peaking", some 0, some 0⟩ =
      ["F", "Peaking", "0 Hz", "0 dB"] ∧
    formatNodeContent (Component.filter
        [("F", ⟨"Biquad", ⟨"Peaking", some 0, some 0⟩⟩)]) ≠
      biquadDetailsClaimed "F" ⟨"Peaking", some 0, some 0⟩ := by
  decide

/-- The Biquad detail lines as amended: the frequency line appears
only when freq is present and nonzero (the JS truthiness guard),
while the gain line appears whenever gain is present (an explicit
definedness test), so zero gain is shown but zero frequency is
not. -/
def biquadDetailsAmended (filterName : String) (params : FilterParams) : List String :=
  [filterName, params.type]
    ++ (if params.freq.isSome ∧ params.freq ≠ some 0 then
          [optNumToString params.freq ++ " Hz"] else [])
    ++ (if params.gain.isSome then [optNumToString params.gain ++ " dB"] else [])

/-- C5 amended: for every Biquad filter stage whose display name key
is non-empty (the if not filterName truthiness guard treats an empty
string key as missing), the formatted details are the display name,
the sub-filter kind, then the frequency line when freq is present
and nonzero, then the gain line when gain is present; in particular
parameters Peaking, freq 1000, gain 0 yield the four lines name,
Peaking, 1000 Hz, 0 dB (zero gain is shown). -/
theorem c5_biquad_details (filterName : String) (params : FilterParams)
    (rest : List (String × FilterSpec)) (hname : filterName ≠ "") :
    formatNodeContent (Component.filter ((filterName, ⟨"Biquad", params⟩) :: rest)) =
      biquadDetailsAmended filterName params ∧
    formatNodeContent (Component.filter
        [("F", ⟨"Biquad", ⟨"Peaking", some 1000, some 0⟩⟩)]) =
      ["F", "Peaking", "1000 Hz", "0 dB"] := by
  constructor
  · rcases params with ⟨t, freq, gain⟩
    rcases freq with _ | v
    · simp [formatNodeContent, biquadDetailsAmended, jsTruthy, hname]
    · by_cases hv : v = 0 <;>
        simp [formatNodeContent, biquadDetailsAmended, jsTruthy, hname, hv]
  · decide

/-- Witness for C5 at a concrete named Biquad filter: the Low Shelf
stage with parameters Lowshelf, freq 100, gain 3 formats to the four
amended detail lines. -/
theorem c5_biquad_details_witness :
    formatNodeContent (Component.filter
        [("Low Shelf", ⟨"Biquad", ⟨"Lowshelf", some 100, some 3⟩⟩)]) =
      biquadDetailsAmended "Low Shelf" ⟨"Lowshelf", some 100, some 3⟩ :=
  (c5_biquad_details "Low Shelf" ⟨"Lowshelf", some 100, some 3⟩ [] (by decide)).1

/-- Counterexample to C6 as stated: for a filter stage whose value
object has no key other than type, the node header is the upper
cased stage type FILTER, not Unknown. -/
theorem c6_counterexample :
    (createNode (Component.filter []) 0 10).header = "FILTER" ∧
    (createNode (Component.filter []) 0 10).header ≠ "Unknown" := by
  decide

/-- C6 amended: a filter stage whose value object contains no key
other than type formats without error (formatNodeContent is total):
the detail lines are the single line Unknown, while the node header
is FILTER, the upper cased stage type. -/
theorem c6_unknown_filter (channelNo xPos : Nat) :
    formatNodeContent (Component.filter []) = ["Unknown"] ∧
    (createNode (Component.filter []) channelNo xPos).header = "FILTER" ∧
    (createNode (Component.filter []) channelNo xPos).details = ["Unknown"] :=
  ⟨rfl, rfl, rfl⟩

/-- C7: a node lacks the left connector exactly when its stage type
is input, lacks the right connector exactly when its stage type is
output, and every node of any other type, including unrecognized
ones, has both connectors. -/
theorem c7_connectors (component : Component) (channelNo xPos : Nat) :
    ((createNode component channelNo xPos).hasLeftConnector = false ↔
      component.ctype = "input") ∧
    ((createNode component channelNo xPos).hasRightConnector = false ↔
      component.ctype = "output") ∧
    (component.ctype ≠ "input" → component.ctype ≠ "output" →
      (createNode component channelNo xPos).hasLeftConnector = true ∧
      (createNode component channelNo xPos).hasRightConnector = true) := by
  refine ⟨?_, ?_, ?_⟩
  · simp [createNode]
  · simp [createNode]
  · intro h1 h2
    simp [createNode, h1, h2]

/-- Witness for C7 at a concrete mixer stage: both connectors are
present. -/
theorem c7_connectors_witness :
    (createNode (Component.mixer []) 0 10).hasLeftConnector = true ∧
    (createNode (Component.mixer []) 0 10).hasRightConnector = true :=
  (c7_connectors (Component.mixer []) 0 10).2.2 (by decide) (by decide)

theorem createWire_width (f t c : BoundingRect) :
    (createWire f t c).width =
      Real.sqrt ((t.left - c.left - (f.right - c.left)) * (t.left - c.left - (f.right - c.left)) +
        (t.top + t.height / 2 - c.top - (f.top + f.height / 2 - c.top)) *
          (t.top + t.height / 2 - c.top - (f.top + f.height / 2 - c.top))) := rfl

theorem createWire_angleDeg (f t c : BoundingRect) :
    (createWire f t c).angleDeg =
      atan2 (t.top + t.height / 2 - c.top - (f.top + f.height / 2 - c.top))
        (t.left - c.left - (f.right - c.left)) * 180 / Real.pi := rfl

/-- C8: the computed wire is anchored at the right edge and vertical
center of the first node (relative to the container), its length is
sqrt(deltaX^2 + deltaY^2) and its angle is atan2(deltaY, deltaX)
times 180 / pi, the deltas taken to the left edge and vertical
center of the second node; when both nodes share a vertical center
and the second lies to the right, the length equals the horizontal
gap between the first node right edge and the second node left edge
and the angle is exactly 0 degrees. -/
theorem c8_wire_geometry (fromRect toRect containerRect : BoundingRect) :
    (createWire fromRect toRect containerRect).left =
      fromRect.right - containerRect.left ∧
    (createWire fromRect toRect containerRect).top =
      fromRect.verticalCenter - containerRect.top ∧
    (createWire fromRect toRect containerRect).width =
      Real.sqrt (((toRect.left - containerRect.left) - (fromRect.right - containerRect.left)) ^ 2 +
        ((toRect.verticalCenter - containerRect.top) -
          (fromRect.verticalCenter - containerRect.top)) ^ 2) ∧
    (createWire fromRect toRect containerRect).angleDeg =
      atan2 ((toRect.verticalCenter - containerRect.top) -
          (fromRect.verticalCenter - containerRect.top))
        ((toRect.left - containerRect.left) - (fromRect.right - containerRect.left)) *
        180 / Real.pi ∧
    (fromRect.verticalCenter = toRect.verticalCenter →
      fromRect.right < toRect.left →
      (createWire fromRect toRect containerRect).width = toRect.left - fromRect.right ∧
      (createWire fromRect toRect containerRect).angleDeg = 0) := by
  refine ⟨rfl, rfl, ?_, rfl, ?_⟩
  · rw [createWire_width]
    congr 1
    simp only [BoundingRect.verticalCenter]
    ring
  · intro hvc hlt
    have hdy0 : toRect.top + toRect.height / 2 - containerRect.top -
        (fromRect.top + fromRect.height / 2 - containerRect.top) = 0 := by
      simp only [BoundingRect.verticalCenter] at hvc
      linarith
    have hdx : toRect.left - containerRect.left - (fromRect.right - containerRect.left) =
        toRect.left - fromRect.right := by ring
    have hdxpos : (0 : ℝ) < toRect.left - fromRect.right := by linarith
    constructor
    · rw [createWire_width, hdy0, hdx, mul_zero, add_zero]
      exact Real.sqrt_mul_self (le_of_lt hdxpos)
    · rw [createWire_angleDeg, hdy0, hdx]
      simp [atan2, hdxpos]

/-- Witness for C8 at concrete measured boxes with a shared vertical
center: two 120-wide, 80-tall nodes whose edges are 30 apart give a
wire of length 30 at angle 0. -/
theorem c8_wire_geometry_witness :
    (createWire ⟨0, 120, 0, 80⟩ ⟨150, 270, 0, 80⟩ ⟨0, 0, 0, 0⟩).width = 30 ∧
    (createWire ⟨0, 120, 0, 80⟩ ⟨150, 270, 0, 80⟩ ⟨0, 0, 0, 0⟩).angleDeg = 0 := by
  have h := (c8_wire_geometry ⟨0, 120, 0, 80⟩ ⟨150, 270, 0, 80⟩ ⟨0, 0, 0, 0⟩).2.2.2.2
    (by norm_num [BoundingRect.verticalCenter]) (by norm_num)
  refine ⟨?_, h.2⟩
  rw [h.1]
  norm_num

/-- Lanes rendered by each of the two racing refresh passes used
against C9: the earlier pass renders one single-stage channel, the
later pass a different one. -/
def racingLanes : Bool → List LaneSpec :=
  fun p =>
    if p then renderLanes [[Component.other "newB"]]
    else renderLanes [[Component.other "newA"]]

/-- Counterexample to C9 as stated: the schedule in which both
refreshes clear the editor before either appends its lanes is a
valid interleaving of two rapid-succession refresh calls (the
second call clears while the first linearize fetch is still in
flight), yet once both complete the editor holds the lanes of both
passes, one after the other, which is not the lane set of any
single render pass. -/
theorem c9_counterexample :
    validInterleaving [RefreshEvent.clearPass false, RefreshEvent.clearPass true,
      RefreshEvent.appendPass false, RefreshEvent.appendPass true] ∧
    runSchedule racingLanes (renderLanes [[Component.other "old"]])
      [RefreshEvent.clearPass false, RefreshEvent.clearPass true,
        RefreshEvent.appendPass false, RefreshEvent.appendPass true] =
      racingLanes false ++ racingLanes true ∧
    racingLanes false ++ racingLanes true ≠ racingLanes false ∧
    racingLanes false ++ racingLanes true ≠ racingLanes true := by
  refine ⟨⟨?_, ?_⟩, rfl, by decide, by decide⟩
  · decide
  · decide

/-- C9 amended: the outcome of two refresh calls in rapid succession
depends on how their atomic steps interleave.  When the steps
serialize, with the first pass appending its lanes before the second
pass clears, exactly one consistent lane set remains, the one of the
later pass; but in the interleavings where both clears precede both
appends, the editor ends up holding the lanes of both passes, one
after the other, so nodes from two render passes remain visible. -/
theorem c9_refresh_race (chsA chsB : List (List Component)) (editor0 : List LaneSpec) :
    runSchedule (fun p => if p then renderLanes chsB else renderLanes chsA) editor0
      [RefreshEvent.clearPass false, RefreshEvent.appendPass false,
        RefreshEvent.clearPass true, RefreshEvent.appendPass true] = renderLanes chsB ∧
    runSchedule (fun p => if p then renderLanes chsB else renderLanes chsA) editor0
      [RefreshEvent.clearPass false, RefreshEvent.clearPass true,
        RefreshEvent.appendPass false, RefreshEvent.appendPass true] =
      renderLanes chsA ++ renderLanes chsB ∧
    runSchedule (fun p => if p then renderLanes chsB else renderLanes chsA) editor0
      [RefreshEvent.clearPass false, RefreshEvent.clearPass true,
        RefreshEvent.appendPass true, RefreshEvent.appendPass false] =
      renderLanes chsB ++ renderLanes chsA := by
  refine ⟨?_, ?_, ?_⟩ <;> simp [runSchedule, refreshStep]

theorem filter_not_wire_of_wires (ws : List WireRef) :
    (ws.map LaneElem.wireElem).filter (fun e => ¬ isWireElem e) = [] := by
  induction ws with
  | nil => rfl
  | cons w rest ih => simp [isWireElem, ih]

theorem filter_not_wire_idem (c : List LaneElem) :
    ((c.filter (fun e => ¬ isWireElem e)).filter (fun e => ¬ isWireElem e)) =
      c.filter (fun e => ¬ isWireElem e) := by
  induction c with
  | nil => rfl
  | cons e rest ih => cases e <;> simp [isWireElem, ih]

/-- C10: drawWires removes every existing wire element before
creating new ones, so it is idempotent on the container, and for a
fixed node list of length N any positive number of invocations
leaves the container with exactly max(N - 1, 0) wires: repeated
invocations never accumulate extra wires. -/
theorem c10_drawWires_idempotent (container : List LaneElem) (nodes : List NodeSpec)
    (k : Nat) (hk : 0 < k) :
    drawWires (drawWires container nodes) nodes = drawWires container nodes ∧
    wireCount ((fun c => drawWires c nodes)^[k] container) = max (nodes.length - 1) 0 := by
  constructor
  · simp only [drawWires]
    rw [List.filter_append, filter_not_wire_idem, filter_not_wire_of_wires,
      List.append_nil]
  · obtain ⟨j, rfl⟩ : ∃ j, k = j + 1 := ⟨k - 1, by omega⟩
    rw [Function.iterate_succ_apply', wireCount_drawWires]
    omega

/-- Witness for C10: two invocations of drawWires on a concrete
two-node lane container leave exactly one wire. -/
theorem c10_drawWires_idempotent_witness :
    wireCount ((fun c => drawWires c ((createLane 0 [Component.other "a",
        Component.other "b"]).nodes))^[2]
      (laneContainer (createLane 0 [Component.other "a", Component.other "b"]))) = 1 :=
  ((c10_drawWires_idempotent
      (laneContainer (createLane 0 [Component.other "a", Component.other "b"]))
      ((createLane 0 [Component.other "a", Component.other "b"]).nodes)
      2 (by decide)).2).trans (by decide)

